import Mathlib

/-!
A shallow embedding of the weather application in `main.js` (Open-Meteo
weather lookup page).  JavaScript numbers are modelled as rationals
(all JSON number payloads the app handles are finite decimals), nullable
values by the `JSVal` inductive, HTTP calls by an explicit
`FetchOutcome` argument, and the browser's locale date renderer by an
oracle function parameter.  The DOM state touched by the app (status
line, weather-section visibility, the ten display fields) is an explicit
`UIState` record, and `handleSearch` is a pure state transformer that
additionally reports the list of network calls it issued.
-/

namespace WeatherApp

/-- Model of a JavaScript value flowing through the numeric display
pipeline: `null`, `undefined`, `NaN`, or a (finite) number modelled as a
rational. -/
inductive JSVal where
  | null
  | undefined
  | nan
  | num (q : ℚ)
deriving DecidableEq

/-- JavaScript truthiness restricted to the values of `JSVal`:
`null`, `undefined` and `NaN` are falsy, a number is truthy iff it is
nonzero. -/
def jsTruthy : JSVal → Bool
  | .num q => decide (q ≠ 0)
  | _ => false

/-- Fractional decimal digits of a rational in `[0, 1)`, most
significant first, with fuel (JS doubles have finitely many decimal
digits, far fewer than the fuel used below). -/
def ratFracDigits : ℚ → Nat → List Char
  | _, 0 => []
  | q, n + 1 =>
    if q = 0 then []
    else Char.ofNat (48 + (⌊q * 10⌋).toNat) :: ratFracDigits (q * 10 - ⌊q * 10⌋) n

/-- Decimal rendering of a rational, modelling JavaScript template
interpolation of a finite-decimal number (`2.5` renders as `"2.5"`,
`180` as `"180"`). -/
def ratToJSString (q : ℚ) : String :=
  let sign := if q < 0 then "-" else ""
  let a := |q|
  let digits := ratFracDigits (a - ⌊a⌋) 64
  sign ++ toString (⌊a⌋.toNat) ++ (if digits.isEmpty then "" else "." ++ String.mk digits)

/-- JavaScript template-literal interpolation of a `JSVal`. -/
def jsValToString : JSVal → String
  | .null => "null"
  | .undefined => "undefined"
  | .nan => "NaN"
  | .num q => ratToJSString q

/-- `Math.round` semantics on the rational model: round half toward
positive infinity, i.e. `⌊x + 1/2⌋`. -/
def jsRound (q : ℚ) : ℤ := ⌊q + 1/2⌋

/-- Embedding of `formatNumber` (main.js lines 118-121): placeholder for
`null`/`undefined`/`NaN`, otherwise `Math.round` of the value followed
by the unit suffix. -/
def formatNumber (v : JSVal) (unit : String) : String :=
  match v with
  | .null => "—"
  | .undefined => "—"
  | .nan => "—"
  | .num q => toString (jsRound q) ++ unit

/-- Embedding of `formatTimeISOToLocal` (main.js lines 108-116).  The
browser's `Date`/`toLocaleString` machinery is abstracted as the oracle
`render`: `render iso tz = some out` means formatting succeeded with
output `out`, `none` means it threw.  A missing timestamp (absent field
or empty string, both falsy in JS) yields the placeholder; a formatting
failure returns the raw input string. -/
def formatTimeISOToLocal (render : String → Option String → Option String)
    (iso : Option String) (tz : Option String) : String :=
  match iso with
  | none => "—"
  | some s =>
    if s = "" then "—"
    else
      match render s tz with
      | some out => out
      | none => s

/-- Embedding of `WEATHER_CODE_MAP` (main.js lines 34-63): the static
Open-Meteo weather-code → PT-BR description table. -/
def WEATHER_CODE_MAP : List (Int × String) :=
  [ (0, "Céu limpo"),
    (1, "Principalmente limpo"),
    (2, "Parcialmente nublado"),
    (3, "Nublado"),
    (45, "Nevoeiro"),
    (48, "Nevoeiro depositante"),
    (51, "Garoa leve"),
    (53, "Garoa"),
    (55, "Garoa intensa"),
    (56, "Garoa gelada leve"),
    (57, "Garoa gelada intensa"),
    (61, "Chuva fraca"),
    (63, "Chuva"),
    (65, "Chuva forte"),
    (66, "Chuva gelada fraca"),
    (67, "Chuva gelada forte"),
    (71, "Neve fraca"),
    (73, "Neve"),
    (75, "Neve forte"),
    (77, "Grãos de neve"),
    (80, "Aguaceiros fracos"),
    (81, "Aguaceiros"),
    (82, "Aguaceiros fortes"),
    (85, "Aguaceiros de neve fracos"),
    (86, "Aguaceiros de neve fortes"),
    (95, "Trovoadas"),
    (96, "Trovoadas com granizo leve"),
    (99, "Trovoadas com granizo forte") ]

/-- Embedding of the weather-code display expression
`WEATHER_CODE_MAP[code] || Código ...` (main.js line 128): the table
entry when present (and truthy, i.e. non-empty), otherwise the fallback
string. -/
def describeWeatherCode (c : Int) : String :=
  match WEATHER_CODE_MAP.lookup c with
  | some s => if s != "" then s else "Código " ++ toString c
  | none => "Código " ++ toString c

/-- Outcome of a `fetch` call: either the transport threw (`fail`, with
the thrown error's message) or an HTTP response arrived, with `ok`
mirroring `res.ok` (2xx status) and `body` the parsed JSON body. -/
inductive FetchOutcome (β : Type) where
  | fail (msg : String)
  | success (ok : Bool) (body : β)
deriving DecidableEq

/-- Error taxonomy of the spec: `NetworkError` (HTTP call failed or
transport failure), `NotFoundError` (geocoding returned no match).
Each carries the message of the JS `Error` object thrown at the
corresponding source location. -/
inductive AppError where
  | NetworkError (msg : String)
  | NotFoundError (msg : String)
deriving DecidableEq

/-- The `message` property of the thrown error. -/
def AppError.message : AppError → String
  | .NetworkError m => m
  | .NotFoundError m => m

/-- One element of the geocoding response's `results` array; fields
absent from the JSON object are `none`. -/
structure GeoResult where
  name : String
  admin1 : Option String
  country : Option String
  latitude : ℚ
  longitude : ℚ
  timezone : Option String
deriving DecidableEq

/-- Parsed JSON body of the geocoding endpoint: a possibly-absent
`results` array. -/
structure GeoBody where
  results : Option (List GeoResult)
deriving DecidableEq

/-- The value `geocodeCity` resolves to (main.js lines 76-81). -/
structure PlaceResult where
  name : String
  latitude : ℚ
  longitude : ℚ
  timezone : Option String
deriving DecidableEq

/-- Embedding of `geocodeCity` (main.js lines 65-82), with the network
interaction reified as the `FetchOutcome` argument.  A transport failure
propagates the thrown error; a non-2xx response throws
"Falha ao buscar geocodificação"; an absent or empty `results` array
throws "Cidade não encontrada"; otherwise the first result is turned
into a `PlaceResult` whose display name appends the `admin1` and
`country` segments when those fields are truthy. -/
def geocodeCity : FetchOutcome GeoBody → Except AppError PlaceResult
  | .fail m => .error (.NetworkError m)
  | .success ok body =>
    if !ok then .error (.NetworkError "Falha ao buscar geocodificação")
    else
      match body.results with
      | none => .error (.NotFoundError "Cidade não encontrada")
      | some [] => .error (.NotFoundError "Cidade não encontrada")
      | some (r :: _) =>
        .ok
          { name := r.name
              ++ (match r.admin1 with
                  | some a => if a != "" then ", " ++ a else ""
                  | none => "")
              ++ (match r.country with
                  | some c => if c != "" then " - " ++ c else ""
                  | none => "")
            latitude := r.latitude
            longitude := r.longitude
            timezone := r.timezone }

/-- The `current` object of the weather endpoint's JSON body.  The
weather code is an integer (the Open-Meteo enumeration); the remaining
measurements are nullable numbers. -/
structure WeatherCurrent where
  time : Option String
  temperature_2m : JSVal
  apparent_temperature : JSVal
  relative_humidity_2m : JSVal
  pressure_msl : JSVal
  precipitation : JSVal
  cloud_cover : JSVal
  weather_code : Int
  wind_speed_10m : JSVal
  wind_direction_10m : JSVal
deriving DecidableEq

/-- Parsed JSON body of the weather endpoint, as destructured by
`updateUI`. -/
structure WeatherBody where
  current : WeatherCurrent
  timezone : Option String
deriving DecidableEq

/-- The `timezone` URL parameter of the weather request:
`timezone || 'auto'` (main.js line 88). -/
def tzParam : Option String → String
  | none => "auto"
  | some t => if t = "" then "auto" else t

/-- Embedding of `getWeather` (main.js lines 84-106): a transport
failure propagates, a non-2xx response throws "Falha ao buscar clima",
otherwise the parsed body is returned unchanged. -/
def getWeather (resp : FetchOutcome WeatherBody) : Except AppError WeatherBody :=
  match resp with
  | .fail m => .error (.NetworkError m)
  | .success ok body =>
    if !ok then .error (.NetworkError "Falha ao buscar clima")
    else .ok body

/-- The ten display fields of the results region (the `ui` record of
main.js lines 10-21), as their rendered text. -/
structure Fields where
  location : String
  obsTime : String
  temp : String
  code : String
  wind : String
  humidity : String
  apparent : String
  pressure : String
  precip : String
  cloud : String
deriving DecidableEq

/-- Embedding of `updateUI` (main.js lines 123-135): the pure
field-text computation, with the locale date renderer passed as the
`render` oracle. -/
def updateUI (render : String → Option String → Option String)
    (city : PlaceResult) (weather : WeatherBody) : Fields :=
  let current := weather.current
  let timezone := weather.timezone
  { location := city.name
    obsTime := "Atualizado: " ++ formatTimeISOToLocal render current.time timezone
    temp := formatNumber current.temperature_2m "°C"
    code := describeWeatherCode current.weather_code
    wind := formatNumber current.wind_speed_10m " km/h" ++ " ("
      ++ (if jsTruthy current.wind_direction_10m then jsValToString current.wind_direction_10m
          else "—")
      ++ "°)"
    humidity := formatNumber current.relative_humidity_2m "%"
    apparent := formatNumber current.apparent_temperature "°C"
    pressure := formatNumber current.pressure_msl " hPa"
    precip := (match current.precipitation with
        | .null => "—"
        | .undefined => "—"
        | v => jsValToString v) ++ " mm"
    cloud := formatNumber current.cloud_cover "%" }

/-- The DOM state the app mutates: the status line's text and class
(`setStatus`, main.js lines 23-26), the weather-section visibility
(`showWeatherSection`, lines 28-30), and the ten display fields. -/
structure UIState where
  status : String
  statusClass : String
  weatherVisible : Bool
  fields : Fields
deriving DecidableEq

/-- Embedding of `setStatus` (main.js lines 23-26).  (`msg || ''` is the
identity on the string messages the app passes.) -/
def setStatus (s : UIState) (msg : String) (type : String) : UIState :=
  { s with status := msg, statusClass := "status " ++ type }

/-- Embedding of `showWeatherSection` (main.js lines 28-30). -/
def showWeatherSection (s : UIState) (b : Bool) : UIState :=
  { s with weatherVisible := b }

/-- A network call issued during one submission, with the request
parameters that identify it. -/
inductive NetCall where
  | geocode (name : String)
  | weather (latitude longitude : ℚ) (timezone : String)
deriving DecidableEq

/-- JavaScript `String.prototype.trim`: drop leading and trailing
whitespace (modelled structurally over the character list so that it
evaluates). -/
def jsTrim (s : String) : String :=
  ⟨((s.data.dropWhile Char.isWhitespace).reverse.dropWhile Char.isWhitespace).reverse⟩

/-- Embedding of `handleSearch` (main.js lines 137-157) for a single
submission: given the input field's value, the two (potential) network
responses, the locale date renderer, and the DOM state before the
submission, it returns the DOM state afterwards together with the list
of network calls issued, in order.  The JS `try`/`catch` around the two
awaits becomes the two error matches; `err.message || 'Erro ao buscar
dados'` is the falsy-message fallback. -/
def handleSearch (render : String → Option String → Option String)
    (inputValue : String)
    (geoResp : FetchOutcome GeoBody) (weatherResp : FetchOutcome WeatherBody)
    (s : UIState) : UIState × List NetCall :=
  let q := jsTrim inputValue
  if q = "" then (s, [])
  else
    let s1 := showWeatherSection (setStatus s "Buscando cidade…" "info") false
    match geocodeCity geoResp with
    | .error err =>
      (showWeatherSection
        (setStatus s1 (if err.message = "" then "Erro ao buscar dados" else err.message) "error")
        false,
       [.geocode q])
    | .ok city =>
      let s2 := setStatus s1 "Buscando clima…" "info"
      match getWeather weatherResp with
      | .error err =>
        (showWeatherSection
          (setStatus s2 (if err.message = "" then "Erro ao buscar dados" else err.message) "error")
          false,
         [.geocode q, .weather city.latitude city.longitude (tzParam city.timezone)])
      | .ok weather =>
        let s3 := { s2 with fields := updateUI render city weather }
        (showWeatherSection (setStatus s3 "" "info") true,
         [.geocode q, .weather city.latitude city.longitude (tzParam city.timezone)])

/-! ### Sample inputs used by witnesses -/

/-- A geocoding result as in the São Paulo scenario of the spec. -/
def spResult : GeoResult :=
  { name := "São Paulo"
    admin1 := some "SP"
    country := some "Brazil"
    latitude := -23
    longitude := -46
    timezone := some "America/Sao_Paulo" }

/-- A resolved place used as concrete input to `updateUI`. -/
def samplePlace : PlaceResult :=
  { name := "São Paulo, SP - Brazil"
    latitude := -23
    longitude := -46
    timezone := some "America/Sao_Paulo" }

/-- A weather payload with `precipitation: null` and
`wind_direction_10m: 0`. -/
def wNullPrecip : WeatherBody :=
  { current :=
      { time := some "2024-10-05T12:00"
        temperature_2m := .num 20
        apparent_temperature := .num 19
        relative_humidity_2m := .num 50
        pressure_msl := .num 1013
        precipitation := .null
        cloud_cover := .num 10
        weather_code := 3
        wind_speed_10m := .num 10
        wind_direction_10m := .num 0 }
    timezone := some "America/Sao_Paulo" }

/-- The same weather payload with a nonzero wind direction. -/
def wWind180 : WeatherBody :=
  { wNullPrecip with
      current := { wNullPrecip.current with wind_direction_10m := .num 180 } }

/-- Concrete display fields for a pre-submission DOM state. -/
def sampleFields : Fields :=
  ⟨"a", "b", "c", "d", "e", "f", "g", "h", "i", "j"⟩

/-- A concrete pre-submission DOM state. -/
def sampleState : UIState :=
  { status := "st", statusClass := "cls", weatherVisible := true, fields := sampleFields }

/-! ### Helper lemmas -/

/-- A string beginning with the literal fallback prefix is non-empty. -/
lemma codigo_append_ne_empty (t : String) : "Código " ++ t ≠ "" := by
  intro h
  have hd := congrArg String.data h
  rw [String.data_append] at hd
  simp at hd

/-- A successful `List.lookup` returns one of the list's values. -/
lemma lookup_mem_snd {l : List (Int × String)} {c : Int} {s : String}
    (h : l.lookup c = some s) : s ∈ l.map Prod.snd := by
  induction l with
  | nil => simp [List.lookup] at h
  | cons p t ih =>
    rw [List.lookup] at h
    cases hc : (c == p.1) with
    | true =>
      rw [hc] at h
      simp only [Option.some.injEq] at h
      subst h
      simp
    | false =>
      rw [hc] at h
      exact List.mem_cons_of_mem _ (ih h)

/-- Every description in the static weather-code table is non-empty. -/
lemma weather_map_values_ne_empty :
    ∀ s ∈ WEATHER_CODE_MAP.map Prod.snd, s ≠ "" := by decide

/-! ### Claim theorems -/

/-- C2: the weather-code lookup is total: for every integer code it
yields a non-empty string — the `WEATHER_CODE_MAP` entry when the code
is one of its keys, the fallback `"Código <code>"` otherwise; in
particular code 3 yields `"Nublado"`. -/
theorem weather_code_lookup_total :
    (∀ c : Int, describeWeatherCode c ≠ "") ∧
    (∀ c : Int, ∀ s, WEATHER_CODE_MAP.lookup c = some s → describeWeatherCode c = s) ∧
    (∀ c : Int, WEATHER_CODE_MAP.lookup c = none →
      describeWeatherCode c = "Código " ++ toString c) ∧
    describeWeatherCode 3 = "Nublado" := by
  refine ⟨?_, ?_, ?_, by decide⟩
  · intro c
    rw [describeWeatherCode]
    cases h : WEATHER_CODE_MAP.lookup c with
    | none => exact codigo_append_ne_empty _
    | some s =>
      by_cases hs : s = ""
      · simpa [hs] using codigo_append_ne_empty (toString c)
      · simp [hs]
  · intro c s h
    have hs : s ≠ "" := weather_map_values_ne_empty s (lookup_mem_snd h)
    rw [describeWeatherCode, h]
    simp [hs]
  · intro c h
    rw [describeWeatherCode, h]

/-- C2 witness: the theorem applied at code 3 (a table key) and at
code 4 (not a key). -/
theorem weather_code_lookup_total_witness :
    describeWeatherCode 3 = "Nublado" ∧ describeWeatherCode 4 = "Código " ++ toString (4 : Int) := by
  refine ⟨weather_code_lookup_total.2.1 3 "Nublado" (by decide), ?_⟩
  exact weather_code_lookup_total.2.2.1 4 (by decide)

/-- C3: `formatNumber` returns the placeholder for `null`, `undefined`
and `NaN`; for every numeric input it returns the input rounded to the
nearest integer (`Math.round`, half away from minus infinity, within
1/2 of the input) followed by the unit suffix; `21.6` with unit `"°C"`
yields `"22°C"`; and it is idempotent on integers: the number rendered
for an integer `n` is `n` itself. -/
theorem formatNumber_spec :
    (∀ u, formatNumber .null u = "—" ∧ formatNumber .undefined u = "—" ∧
      formatNumber .nan u = "—") ∧
    (∀ q u, formatNumber (.num q) u = toString (jsRound q) ++ u ∧
      |(jsRound q : ℚ) - q| ≤ 1/2) ∧
    formatNumber (.num (108/5)) "°C" = "22°C" ∧
    (∀ n : ℤ, jsRound (n : ℚ) = n ∧ ∀ u, formatNumber (.num (n : ℚ)) u = toString n ++ u) := by
  have hround : ∀ n : ℤ, jsRound (n : ℚ) = n := by
    intro n
    rw [jsRound, Int.floor_eq_iff]
    constructor
    · linarith
    · linarith
  refine ⟨fun u => ⟨rfl, rfl, rfl⟩, fun q u => ⟨rfl, ?_⟩, ?_, fun n => ⟨hround n, fun u => ?_⟩⟩
  · have h1 : (⌊q + 1/2⌋ : ℚ) ≤ q + 1/2 := Int.floor_le _
    have h2 : q + 1/2 < (⌊q + 1/2⌋ : ℚ) + 1 := Int.lt_floor_add_one _
    rw [jsRound, abs_le]
    constructor <;> linarith
  · have h : jsRound (108/5 : ℚ) = 22 := by
      rw [jsRound, Int.floor_eq_iff]
      constructor <;> norm_num
    show toString (jsRound (108/5 : ℚ)) ++ "°C" = "22°C"
    rw [h]
    rfl
  · show toString (jsRound (n : ℚ)) ++ u = toString n ++ u
    rw [hround n]

/-- C8: the time formatter returns the placeholder for a missing
(absent or empty) timestamp, the locale renderer's output for a
non-empty timestamp when rendering succeeds, and the raw input string
when rendering throws. -/
theorem formatTime_spec :
    ∀ (render : String → Option String → Option String) (tz : Option String),
      formatTimeISOToLocal render none tz = "—" ∧
      formatTimeISOToLocal render (some "") tz = "—" ∧
      (∀ s out, s ≠ "" → render s tz = some out →
        formatTimeISOToLocal render (some s) tz = out) ∧
      (∀ s, s ≠ "" → render s tz = none →
        formatTimeISOToLocal render (some s) tz = s) := by
  intro render tz
  refine ⟨rfl, rfl, ?_, ?_⟩
  · intro s out hs hr
    simp [formatTimeISOToLocal, hs, hr]
  · intro s hs hr
    simp [formatTimeISOToLocal, hs, hr]

/-- C8 witness: the theorem applied to a concrete renderer that
succeeds, one that throws, and a missing timestamp. -/
theorem formatTime_spec_witness :
    formatTimeISOToLocal (fun _ _ => some "05/10 12:30") (some "2024-10-05T12:30")
        (some "America/Sao_Paulo") = "05/10 12:30" ∧
    formatTimeISOToLocal (fun _ _ => none) (some "2024-10-05T12:30") none
        = "2024-10-05T12:30" ∧
    formatTimeISOToLocal (fun _ _ => none) none none = "—" := by
  refine ⟨?_, ?_, (formatTime_spec (fun _ _ => none) none).1⟩
  · exact (formatTime_spec _ _).2.2.1 _ _ (by decide) rfl
  · exact (formatTime_spec _ _).2.2.2 _ (by decide) rfl

/-- C1: for every geocoding response with a non-empty results array,
`geocodeCity` returns the first result only, with the display name
composed as `"<name>, <region> - <country>"`, the region segment
omitted when `admin1` is absent and the country segment omitted when
`country` is absent; the coordinates and timezone are the first
result's. -/
theorem geocodeCity_first_result (r : GeoResult) (rest : List GeoResult) :
    ∃ p : PlaceResult,
      geocodeCity (.success true ⟨some (r :: rest)⟩) = .ok p ∧
      p.latitude = r.latitude ∧ p.longitude = r.longitude ∧ p.timezone = r.timezone ∧
      (r.admin1 = none → r.country = none → p.name = r.name) ∧
      (∀ c, r.admin1 = none → r.country = some c → c ≠ "" →
        p.name = r.name ++ " - " ++ c) ∧
      (∀ a, r.admin1 = some a → a ≠ "" → r.country = none →
        p.name = r.name ++ ", " ++ a) ∧
      (∀ a c, r.admin1 = some a → a ≠ "" → r.country = some c → c ≠ "" →
        p.name = r.name ++ ", " ++ a ++ " - " ++ c) := by
  refine ⟨_, rfl, rfl, rfl, rfl, ?_, ?_, ?_, ?_⟩
  · intro h1 h2
    simp [h1, h2]
  · intro c h1 h2 hc
    simp [h1, h2, hc, String.append_assoc]
  · intro a h1 ha h2
    simp [h1, h2, ha, String.append_assoc]
  · intro a c h1 ha h2 hc
    simp [h1, h2, ha, hc, String.append_assoc]

/-- C1 witness: the São Paulo scenario — one result named
"São Paulo", region "SP", country "Brazil" yields the display name
"São Paulo, SP - Brazil". -/
theorem geocodeCity_first_result_witness :
    ∃ p : PlaceResult,
      geocodeCity (.success true ⟨some [spResult]⟩) = .ok p ∧
      p.name = "São Paulo, SP - Brazil" := by
  obtain ⟨p, hp, -, -, -, -, -, -, hname⟩ := geocodeCity_first_result spResult []
  refine ⟨p, hp, ?_⟩
  rw [hname "SP" "Brazil" rfl (by decide) rfl (by decide)]
  decide

/-- Whether the HTTP call behind a `FetchOutcome` succeeded: a 2xx
response arrived (spec: the complement is "non-2xx or transport
failure"). -/
def fetchOk {β : Type} : FetchOutcome β → Bool
  | .fail _ => false
  | .success ok _ => ok

/-- C4: `geocodeCity` fails with `NotFoundError` exactly when a
successful response carries a missing or empty results array, fails
with `NetworkError` exactly when the HTTP call does not succeed, and
returns a `PlaceResult` without error in every other case. -/
theorem geocodeCity_error_classification (resp : FetchOutcome GeoBody) :
    ((∃ m, geocodeCity resp = .error (.NotFoundError m)) ↔
      (∃ body, resp = .success true body ∧
        (body.results = none ∨ body.results = some []))) ∧
    ((∃ m, geocodeCity resp = .error (.NetworkError m)) ↔ fetchOk resp = false) ∧
    ((∀ m, geocodeCity resp ≠ .error (.NotFoundError m)) →
      (∀ m, geocodeCity resp ≠ .error (.NetworkError m)) →
      ∃ p, geocodeCity resp = .ok p) := by
  rcases resp with m | ⟨ok, body⟩
  · refine ⟨?_, ?_, ?_⟩
    · simp [geocodeCity]
    · simp [geocodeCity, fetchOk]
    · intro _ h2
      exact absurd rfl (h2 m)
  · obtain ⟨results⟩ := body
    cases ok with
    | false =>
      refine ⟨?_, ?_, ?_⟩
      · simp [geocodeCity]
      · simp [geocodeCity, fetchOk]
      · intro _ h2
        exact absurd rfl (h2 "Falha ao buscar geocodificação")
    | true =>
      cases results with
      | none =>
        refine ⟨?_, ?_, ?_⟩
        · simp [geocodeCity]
        · simp [geocodeCity, fetchOk]
        · intro h1 _
          exact absurd rfl (h1 "Cidade não encontrada")
      | some l =>
        cases l with
        | nil =>
          refine ⟨?_, ?_, ?_⟩
          · simp [geocodeCity]
          · simp [geocodeCity, fetchOk]
          · intro h1 _
            exact absurd rfl (h1 "Cidade não encontrada")
        | cons r rest =>
          refine ⟨?_, ?_, ?_⟩
          · simp [geocodeCity]
          · simp [geocodeCity, fetchOk]
          · intro _ _
            exact ⟨_, rfl⟩

/-- C4 witness: the classification applied to a zero-result success, a
transport failure, and a one-result success. -/
theorem geocodeCity_error_classification_witness :
    (∃ m, geocodeCity (.success true ⟨some []⟩) = .error (.NotFoundError m)) ∧
    (∃ m, geocodeCity (.fail "Failed to fetch") = .error (.NetworkError m)) ∧
    (∃ p, geocodeCity (.success true ⟨some [spResult]⟩) = .ok p) := by
  refine ⟨(geocodeCity_error_classification _).1.mpr ⟨_, rfl, Or.inr rfl⟩,
          (geocodeCity_error_classification _).2.1.mpr rfl,
          (geocodeCity_error_classification _).2.2 ?_ ?_⟩
  · intro m h
    simp [geocodeCity, spResult] at h
  · intro m h
    simp [geocodeCity, spResult] at h

/-- C5: a submission whose trimmed query is empty performs no network
call and leaves the whole DOM state unchanged. -/
theorem handleSearch_empty_query_noop
    (render : String → Option String → Option String) (inputValue : String)
    (geoResp : FetchOutcome GeoBody) (weatherResp : FetchOutcome WeatherBody)
    (s : UIState) (h : jsTrim inputValue = "") :
    handleSearch render inputValue geoResp weatherResp s = (s, []) := by
  simp [handleSearch, h]

/-- C5 witness: a whitespace-only query on a concrete state. -/
theorem handleSearch_empty_query_noop_witness :
    handleSearch (fun _ _ => none) "   " (.fail "x") (.fail "y") sampleState
      = (sampleState, []) :=
  handleSearch_empty_query_noop _ _ _ _ _ (by decide)

/-- C6: when geocoding or the weather call fails, the submission ends
in the error state: the status text is the thrown error's message with
the `error` severity class, the weather section is hidden, and the
display fields keep their prior values. -/
theorem handleSearch_failure_error_state
    (render : String → Option String → Option String) (inputValue : String)
    (geoResp : FetchOutcome GeoBody) (weatherResp : FetchOutcome WeatherBody)
    (s : UIState) (e : AppError)
    (hq : jsTrim inputValue ≠ "")
    (he : e.message ≠ "")
    (h : geocodeCity geoResp = .error e ∨
      (∃ city, geocodeCity geoResp = .ok city ∧ getWeather weatherResp = .error e)) :
    (handleSearch render inputValue geoResp weatherResp s).1.status = e.message ∧
    (handleSearch render inputValue geoResp weatherResp s).1.statusClass = "status error" ∧
    (handleSearch render inputValue geoResp weatherResp s).1.weatherVisible = false ∧
    (handleSearch render inputValue geoResp weatherResp s).1.fields = s.fields := by
  rcases h with h | ⟨city, hc, hw⟩
  · simp [handleSearch, hq, h, he, setStatus, showWeatherSection]
  · simp [handleSearch, hq, hc, hw, he, setStatus, showWeatherSection]

/-- C6 witness: geocoding returns zero results — the status shows the
not-found message with the error class, the weather region stays
hidden, and the fields are untouched. -/
theorem handleSearch_failure_error_state_witness :
    (handleSearch (fun _ _ => none) "Atlantis" (.success true ⟨some []⟩) (.fail "x")
        sampleState).1.status = "Cidade não encontrada" ∧
    (handleSearch (fun _ _ => none) "Atlantis" (.success true ⟨some []⟩) (.fail "x")
        sampleState).1.statusClass = "status error" ∧
    (handleSearch (fun _ _ => none) "Atlantis" (.success true ⟨some []⟩) (.fail "x")
        sampleState).1.weatherVisible = false ∧
    (handleSearch (fun _ _ => none) "Atlantis" (.success true ⟨some []⟩) (.fail "x")
        sampleState).1.fields = sampleState.fields :=
  handleSearch_failure_error_state _ _ _ _ _ (.NotFoundError "Cidade não encontrada")
    (by decide) (by decide) (Or.inl rfl)

/-- C9: within one submission the weather call is only issued after
the geocoding call returned successfully; the calls of a submission
carrying a weather call are exactly the geocoding call for the trimmed
query followed by the weather call with the resolved coordinates and
timezone. -/
theorem weather_call_requires_geocode_success
    (render : String → Option String → Option String) (inputValue : String)
    (geoResp : FetchOutcome GeoBody) (weatherResp : FetchOutcome WeatherBody)
    (s : UIState) (lat lon : ℚ) (tz : String)
    (h : NetCall.weather lat lon tz ∈ (handleSearch render inputValue geoResp weatherResp s).2) :
    ∃ city, geocodeCity geoResp = .ok city ∧
      (handleSearch render inputValue geoResp weatherResp s).2
        = [NetCall.geocode (jsTrim inputValue),
           NetCall.weather city.latitude city.longitude (tzParam city.timezone)] := by
  by_cases hq : jsTrim inputValue = ""
  · simp [handleSearch, hq] at h
  · cases hg : geocodeCity geoResp with
    | error e => simp [handleSearch, hq, hg] at h
    | ok city =>
      refine ⟨city, rfl, ?_⟩
      cases hw : getWeather weatherResp with
      | error e => simp [handleSearch, hq, hg, hw]
      | ok weather => simp [handleSearch, hq, hg, hw]

/-- C9 witness: a submission whose geocoding succeeds issues the
geocoding call and then the weather call with the first result's
coordinates and timezone. -/
theorem weather_call_requires_geocode_success_witness :
    ∃ city, geocodeCity (.success true ⟨some [spResult]⟩) = .ok city ∧
      (handleSearch (fun _ _ => none) "São Paulo" (.success true ⟨some [spResult]⟩)
          (.fail "x") sampleState).2
        = [NetCall.geocode (jsTrim "São Paulo"),
           NetCall.weather city.latitude city.longitude (tzParam city.timezone)] :=
  weather_call_requires_geocode_success _ _ _ _ _ (-23) (-46) "America/Sao_Paulo"
    (List.Mem.tail _ (List.Mem.head _))

/-- C7 counterexample: the precipitation field is not rendered through
the numeric formatter — for a payload with `precipitation: null` the
field reads `"— mm"`, while the numeric formatter returns `"—"` for
that value with the same unit. -/
theorem updateUI_precip_not_formatter :
    (updateUI (fun _ _ => none) samplePlace wNullPrecip).precip = "— mm" ∧
    formatNumber wNullPrecip.current.precipitation " mm" = "—" ∧
    ("— mm" : String) ≠ "—" :=
  ⟨rfl, rfl, by decide⟩

/-- C7 amended: the render step overwrites each field with a fixed
expression over the payload, with location, temperature, apparent
temperature, humidity, pressure, cloud cover and wind speed going
through the numeric formatter, the observation time through the time
formatter, the condition through the code lookup, while precipitation
and the wind-direction segment are interpolated raw (precipitation
falling back to the placeholder when null or undefined, wind direction
when falsy). -/
theorem updateUI_render_fields
    (render : String → Option String → Option String)
    (city : PlaceResult) (weather : WeatherBody) :
    (updateUI render city weather).location = city.name ∧
    (updateUI render city weather).obsTime
      = "Atualizado: " ++ formatTimeISOToLocal render weather.current.time weather.timezone ∧
    (updateUI render city weather).temp
      = formatNumber weather.current.temperature_2m "°C" ∧
    (updateUI render city weather).code
      = describeWeatherCode weather.current.weather_code ∧
    (updateUI render city weather).humidity
      = formatNumber weather.current.relative_humidity_2m "%" ∧
    (updateUI render city weather).apparent
      = formatNumber weather.current.apparent_temperature "°C" ∧
    (updateUI render city weather).pressure
      = formatNumber weather.current.pressure_msl " hPa" ∧
    (updateUI render city weather).cloud
      = formatNumber weather.current.cloud_cover "%" ∧
    (updateUI render city weather).wind
      = formatNumber weather.current.wind_speed_10m " km/h" ++ " ("
        ++ (if jsTruthy weather.current.wind_direction_10m
            then jsValToString weather.current.wind_direction_10m
            else "—")
        ++ "°)" ∧
    (updateUI render city weather).precip
      = (match weather.current.precipitation with
          | .null => "—"
          | .undefined => "—"
          | v => jsValToString v) ++ " mm" :=
  ⟨rfl, rfl, rfl, rfl, rfl, rfl, rfl, rfl, rfl, rfl⟩

/-- C10: a zero wind direction is falsy, so the wind field shows the
placeholder in the direction segment; a nonzero numeric direction is
shown raw followed by the degree sign. -/
theorem wind_direction_zero_placeholder
    (render : String → Option String → Option String)
    (city : PlaceResult) (weather : WeatherBody) :
    (weather.current.wind_direction_10m = JSVal.num 0 →
      (updateUI render city weather).wind
        = formatNumber weather.current.wind_speed_10m " km/h" ++ " (—°)") ∧
    (∀ q : ℚ, q ≠ 0 → weather.current.wind_direction_10m = JSVal.num q →
      (updateUI render city weather).wind
        = formatNumber weather.current.wind_speed_10m " km/h"
            ++ " (" ++ ratToJSString q ++ "°)") := by
  constructor
  · intro h
    simp [updateUI, h, jsTruthy, String.append_assoc]
  · intro q hq h
    simp [updateUI, h, jsTruthy, hq, jsValToString, String.append_assoc]

/-- C10 witness: the payload with direction 0 shows the placeholder,
the payload with direction 180 shows the raw value. -/
theorem wind_direction_zero_placeholder_witness :
    ((updateUI (fun _ _ => none) samplePlace wNullPrecip).wind
      = formatNumber wNullPrecip.current.wind_speed_10m " km/h" ++ " (—°)") ∧
    ((updateUI (fun _ _ => none) samplePlace wWind180).wind
      = formatNumber wWind180.current.wind_speed_10m " km/h"
          ++ " (" ++ ratToJSString 180 ++ "°)") :=
  ⟨(wind_direction_zero_placeholder _ _ _).1 rfl,
   (wind_direction_zero_placeholder _ _ _).2 180 (by norm_num) rfl⟩

end WeatherApp
